import Mathlib

/-!
Verification of the in-memory domain store and mock verification workflow of
the hack-your-own-app repository (`src/features/domains/mocks/domains-store.ts`
and `domains-mock-api.ts`).

JavaScript strings are modelled by Lean `String` (a list of characters), with
explicit models of the string methods the code uses: `toLowerCase` (ASCII
lowercasing, the only case the store handles), `trim` and `endsWith`.
The mutable module-level array `domainsStore.records` is modelled by explicit
state passing: every operation takes the current list of records and returns
the new one.  A JavaScript `throw` does not roll back prior mutations, so
`verifyDomainMock` returns an `Except` paired with the (possibly updated)
store.  The non-deterministic helpers `uid()` and `nowIso()` are modelled by
explicit `newId` / `now` parameters.

`scanCount` is declared `number` in the TypeScript type, but the store code
defends against `undefined` (`existing.scanCount ?? 0`), so it is modelled as
`Option Nat`, with the nullish-coalescing made explicit.
-/

namespace HYOW

/-- Model of `String.prototype.toLowerCase` on one character: ASCII basic-latin
lowercasing (the store only handles ASCII domain names). -/
def lowerChar (c : Char) : Char :=
  match c with
  | 'A' => 'a'
  | 'B' => 'b'
  | 'C' => 'c'
  | 'D' => 'd'
  | 'E' => 'e'
  | 'F' => 'f'
  | 'G' => 'g'
  | 'H' => 'h'
  | 'I' => 'i'
  | 'J' => 'j'
  | 'K' => 'k'
  | 'L' => 'l'
  | 'M' => 'm'
  | 'N' => 'n'
  | 'O' => 'o'
  | 'P' => 'p'
  | 'Q' => 'q'
  | 'R' => 'r'
  | 'S' => 's'
  | 'T' => 't'
  | 'U' => 'u'
  | 'V' => 'v'
  | 'W' => 'w'
  | 'X' => 'x'
  | 'Y' => 'y'
  | 'Z' => 'z'
  | c => c

/-- Whitespace characters removed by `String.prototype.trim`. -/
def isWsChar (c : Char) : Bool :=
  c == ' ' || c == '\t' || c == '\n' || c == '\r' || c == '\x0B' || c == '\x0C'

/-- Remove leading and trailing whitespace from a character list. -/
def trimChars (l : List Char) : List Char :=
  ((l.dropWhile isWsChar).reverse.dropWhile isWsChar).reverse

/-- Model of `String.prototype.toLowerCase`. -/
def jsToLower (s : String) : String :=
  ⟨s.data.map lowerChar⟩

/-- Model of `String.prototype.trim`. -/
def jsTrim (s : String) : String :=
  ⟨trimChars s.data⟩

/-- Model of `String.prototype.endsWith`. -/
def jsEndsWith (s pat : String) : Bool :=
  pat.data.isSuffixOf s.data

/-- Modelled from the spec: `src/api/client.ts` is not in the tree.  The spec
describes errors as "a typed wrapper carrying status code and server-supplied
payload"; `verifyDomainMock` always constructs the payload as
`{ message }`, so the payload is modelled by its message string. -/
structure ApiError where
  message : String
  status : Nat
  dataMessage : String
deriving DecidableEq

/-- Modelled from the spec: `src/features/domains/constants.ts` is not in the
tree.  The spec says the token is "one fixed expected value" / "fixed
placeholder, not per-domain"; its concrete value is irrelevant to every claim,
which only compare the submitted token against this constant. -/
def DOMAIN_VERIFY_TOKEN : String := "HYOW-VERIFY-PLACEHOLDER-XXXXXX"

/-- The domain record stored in `domainsStore.records`
(`Domain & { scanCount, lastScan? }`). -/
structure DomainRecord where
  id : String
  user_id : String
  domain_name : String
  isVerified : Bool
  verification_token : String
  created_at : String
  verified_at : Option String
  scanCount : Option Nat
  lastScan : Option String
deriving DecidableEq

/-- The `options` argument of `createDomainRecord`, with its defaults. -/
structure CreateOptions where
  verified : Bool := false
  scanCount : Nat := 0
  lastScan : Option String := none

/-- `createDomainRecord(domainName, options)`; `uid()` and `nowIso()` are the
explicit `id` / `timestamp` parameters. -/
def createDomainRecord (id timestamp domainName : String)
    (options : CreateOptions) : DomainRecord :=
  { id := id
    user_id := "usr_123"
    domain_name := domainName
    isVerified := options.verified
    verification_token := "HYOW-VERIFY-PLACEHOLDER-XXXXXX"
    created_at := timestamp
    verified_at := if options.verified then some timestamp else none
    scanCount := some options.scanCount
    lastScan := options.lastScan }

/-- `findDomainByName(domainName)`: `records.find((domain) =>
domain.domain_name.toLowerCase() === domainName.toLowerCase().trim())`. -/
def findDomainByName (store : List DomainRecord) (domainName : String) :
    Option DomainRecord :=
  store.find? fun domain => jsToLower domain.domain_name == jsTrim (jsToLower domainName)

/-- `findDomainById(domainId)`. -/
def findDomainById (store : List DomainRecord) (domainId : String) :
    Option DomainRecord :=
  store.find? fun domain => domain.id == domainId

/-- `records.find(p)` followed by mutating the found element in place with `f`
(the element is aliased by the array slot, so the slot changes with it):
returns the updated element and the updated array, or `none` when nothing
matches. -/
def replaceFirst {α : Type} (p : α → Bool) (f : α → α) :
    List α → Option (α × List α)
  | [] => none
  | d :: ds =>
    if p d then
      some (f d, f d :: ds)
    else
      match replaceFirst p f ds with
      | some (r, ds') => some (r, d :: ds')
      | none => none

/-- `upsertDomain(domain)`: replace the record with the same `id` in place,
else `unshift` to the front.  Returns the updated records array. -/
def upsertDomain (domain : DomainRecord) (store : List DomainRecord) :
    List DomainRecord :=
  match replaceFirst (fun item => item.id == domain.id) (fun _ => domain) store with
  | some (_, store') => store'
  | none => domain :: store

/-- The in-place mutation `verifyDomainRecord` performs on an existing record:
`existing.isVerified = true; existing.verified_at = timestamp;
existing.scanCount = existing.scanCount ?? 0`. -/
def verifyUpdate (now : String) (d : DomainRecord) : DomainRecord :=
  { d with
    isVerified := true
    verified_at := some now
    scanCount := some (d.scanCount.getD 0) }

/-- `verifyDomainRecord(domainName)`: find an existing record by the
trimmed-and-lowercased name and mark it verified in place, else create a fresh
verified record and `unshift` it.  Returns the record and the updated store. -/
def verifyDomainRecord (newId now domainName : String)
    (store : List DomainRecord) : DomainRecord × List DomainRecord :=
  match replaceFirst
      (fun domain => jsToLower domain.domain_name == jsToLower (jsTrim domainName))
      (verifyUpdate now) store with
  | some (r, store') => (r, store')
  | none =>
    (createDomainRecord newId now domainName { verified := true, scanCount := 0 },
     createDomainRecord newId now domainName { verified := true, scanCount := 0 } :: store)

/-- The mutation `updateDomainRecord` applies to the found record: when
`updates.domain_name` is a string it is assigned and the verification state is
reset; otherwise the record is untouched. -/
def applyDomainUpdates (updates : Option String) (d : DomainRecord) : DomainRecord :=
  match updates with
  | some name =>
    { d with domain_name := name, isVerified := false, verified_at := none }
  | none => d

/-- `updateDomainRecord(domainId, updates)`: returns `null` when no record has
the id, else mutates the record in place and returns it.  The updated store is
returned alongside. -/
def updateDomainRecord (domainId : String) (updates : Option String)
    (store : List DomainRecord) : Option DomainRecord × List DomainRecord :=
  match replaceFirst (fun domain => domain.id == domainId)
      (applyDomainUpdates updates) store with
  | some (r, store') => (some r, store')
  | none => (none, store)

/-- `removeDomainRecord(domainId)`: splice out the first record with the id;
returns whether a row was removed, with the updated store. -/
def removeDomainRecord (domainId : String) (store : List DomainRecord) :
    Bool × List DomainRecord :=
  if store.any (fun domain => domain.id == domainId) then
    (true, store.eraseP (fun domain => domain.id == domainId))
  else
    (false, store)

/-- A concrete stored record whose `domain_name` carries surrounding
whitespace; such a record is reachable, since `updateDomainRecord` and
`upsertDomain` store the supplied name verbatim. -/
def wsRecord : DomainRecord :=
  { id := "dom_ws"
    user_id := "usr_123"
    domain_name := " example.com "
    isVerified := false
    verification_token := "HYOW-VERIFY-PLACEHOLDER-XXXXXX"
    created_at := "2026-01-01T00:00:00.000Z"
    verified_at := none
    scanCount := some 0
    lastScan := none }

/-- A concrete already-verified record, like the seeded `example.com`. -/
def seedVerified : DomainRecord :=
  createDomainRecord ("dom_seed1") ("2026-01-01T00:00:00.000Z") ("example.com")
    { verified := true, scanCount := 5 }

/-- A concrete record named `dup.example`. -/
def dupA : DomainRecord :=
  createDomainRecord ("dom_a") ("2026-01-01T00:00:00.000Z") ("dup.example") {}

/-- A concrete record with a fresh id whose name equals `dup.example` after
normalization. -/
def dupB : DomainRecord :=
  createDomainRecord ("dom_b") ("2026-01-03T00:00:00.000Z") (" DUP.example ") {}

/-- The `ApiError` thrown for an empty domain name. -/
def missingDomainError : ApiError :=
  { message := "Domain is required.", status := 400
    dataMessage := "Domain is required." }

/-- The `ApiError` thrown for a wrong token. -/
def invalidTokenError : ApiError :=
  { message := "Invalid verification token.", status := 400
    dataMessage := "Invalid verification token." }

/-- The `ApiError` thrown for a name ending in `.invalid`. -/
def dnsVerificationFailedError : ApiError :=
  { message := "DNS verification failed. Check the TXT record and try again."
    status := 422
    dataMessage := "DNS verification failed. Check the TXT record and try again." }

/-- The `ApiError` thrown for an already-verified domain. -/
def alreadyVerifiedError : ApiError :=
  { message := "Domain is already verified.", status := 409
    dataMessage := "Domain is already verified." }

/-- `verifyDomainMock({ domain, token })`.  A thrown `ApiError` is the
`Except.error` case; since `throw` does not undo prior mutations, the store is
returned in every case. -/
def verifyDomainMock (newId now domain token : String)
    (store : List DomainRecord) : Except ApiError DomainRecord × List DomainRecord :=
  if jsTrim domain = "" then
    (Except.error missingDomainError, store)
  else if token ≠ DOMAIN_VERIFY_TOKEN then
    (Except.error invalidTokenError, store)
  else if jsEndsWith (jsTrim domain) (".invalid") then
    (Except.error dnsVerificationFailedError, store)
  else if (((findDomainByName store (jsTrim domain)).map
      DomainRecord.isVerified).getD false) = true then
    (Except.error alreadyVerifiedError, store)
  else
    (Except.ok (verifyDomainRecord newId now (jsTrim domain) store).1,
     (verifyDomainRecord newId now (jsTrim domain) store).2)

/-! ## Helper lemmas about the string model -/

theorem isWsChar_lowerChar (c : Char) : isWsChar (lowerChar c) = isWsChar c := by
  unfold lowerChar
  split <;> rfl

theorem dropWhile_head_false {α : Type} {p : α → Bool} {c : α} {t l : List α}
    (h : l.dropWhile p = c :: t) : p c = false := by
  induction l with
  | nil => simp [List.dropWhile] at h
  | cons a as ih =>
    rw [List.dropWhile_cons] at h
    by_cases ha : p a = true
    · rw [if_pos ha] at h
      exact ih h
    · rw [if_neg ha] at h
      cases h
      simpa using ha

theorem dropWhile_eq_self_of_append {α : Type} {p : α → Bool} {x y : List α}
    (h : (x ++ y).dropWhile p = x ++ y) : x.dropWhile p = x := by
  cases x with
  | nil => rfl
  | cons c cs =>
    have hc : p c = false := by
      have h' : (c :: (cs ++ y)).dropWhile p = c :: (cs ++ y) := h
      exact dropWhile_head_false h'
    rw [List.dropWhile_cons, if_neg (by simp [hc])]

theorem trimChars_idem (l : List Char) : trimChars (trimChars l) = trimChars l := by
  obtain ⟨t, ht⟩ := List.dropWhile_suffix (l := (l.dropWhile isWsChar).reverse) isWsChar
  have hsplit : ((l.dropWhile isWsChar).reverse.dropWhile isWsChar).reverse ++ t.reverse
      = l.dropWhile isWsChar := by
    rw [← List.reverse_append, ht, List.reverse_reverse]
  have hfix : (((l.dropWhile isWsChar).reverse.dropWhile isWsChar).reverse).dropWhile isWsChar
      = ((l.dropWhile isWsChar).reverse.dropWhile isWsChar).reverse := by
    apply dropWhile_eq_self_of_append (y := t.reverse)
    rw [hsplit]
    exact List.dropWhile_idempotent isWsChar l
  unfold trimChars
  rw [hfix, List.reverse_reverse, List.dropWhile_idempotent]

theorem trimChars_map_lowerChar (l : List Char) :
    trimChars (l.map lowerChar) = (trimChars l).map lowerChar := by
  have hp : (isWsChar ∘ lowerChar) = isWsChar := funext fun c => isWsChar_lowerChar c
  unfold trimChars
  rw [List.dropWhile_map, hp, ← List.map_reverse, List.dropWhile_map, hp, ← List.map_reverse]

theorem jsTrim_jsTrim (s : String) : jsTrim (jsTrim s) = jsTrim s :=
  congrArg String.mk (trimChars_idem s.data)

theorem jsTrim_jsToLower (s : String) : jsTrim (jsToLower s) = jsToLower (jsTrim s) :=
  congrArg String.mk (trimChars_map_lowerChar s.data)

/-! ## Helper lemmas about `replaceFirst` -/

theorem replaceFirst_eq_none_of {α : Type} {p : α → Bool} {f : α → α} {l : List α}
    (h : ∀ d ∈ l, p d = false) : replaceFirst p f l = none := by
  induction l with
  | nil => rfl
  | cons d ds ih =>
    unfold replaceFirst
    rw [if_neg (by simp [h d (List.mem_cons_self d ds)]),
      ih (fun x hx => h x (List.mem_cons_of_mem d hx))]

theorem replaceFirst_append {α : Type} {p : α → Bool} (f : α → α) (as : List α)
    (e : α) (bs : List α) (has : ∀ d ∈ as, p d = false) (he : p e = true) :
    replaceFirst p f (as ++ e :: bs) = some (f e, as ++ f e :: bs) := by
  induction as with
  | nil =>
    simp only [List.nil_append]
    unfold replaceFirst
    rw [if_pos he]
  | cons a as' ih =>
    simp only [List.cons_append]
    unfold replaceFirst
    rw [if_neg (by simp [has a (List.mem_cons_self a as')]),
      ih (fun x hx => has x (List.mem_cons_of_mem a hx))]

/-! ## Claim theorems -/

/-- Claim C1, counterexample: the claim says both the stored name and the
query are trimmed before the case-insensitive comparison.  They are not: for
the stored name `" example.com "` and the query `"example.com"`, the two are
equal after lowercasing and trimming both, yet `findDomainByName` does not
return the record — only the query is trimmed, the stored name is compared
untrimmed. -/
theorem findDomainByName_trims_only_query_cex :
    jsToLower (jsTrim wsRecord.domain_name) = jsToLower (jsTrim ("example.com")) ∧
    findDomainByName [wsRecord] ("example.com") = none := by
  decide

/-- Claim C1 (amended): `findDomainByName` lowercases the stored name without
trimming it, and lowercases then trims the query: it returns a record only if
that record is stored and its lowercased name equals the lowercased-and-trimmed
query, and it returns `none` exactly when no stored record's lowercased name
equals the lowercased-and-trimmed query. -/
theorem findDomainByName_characterization (store : List DomainRecord) (q : String) :
    (∀ r, findDomainByName store q = some r →
      r ∈ store ∧ jsToLower r.domain_name = jsTrim (jsToLower q)) ∧
    (findDomainByName store q = none ↔
      ∀ r ∈ store, jsToLower r.domain_name ≠ jsTrim (jsToLower q)) := by
  constructor
  · intro r h
    unfold findDomainByName at h
    refine ⟨List.mem_of_find?_eq_some h, ?_⟩
    have hp := List.find?_some h
    simpa using hp
  · unfold findDomainByName
    rw [List.find?_eq_none]
    constructor
    · intro h r hr
      simpa using h r hr
    · intro h r hr
      simpa using h r hr

/-- Claim C3: when the domain name is empty after trimming, `verifyDomainMock`
fails with the MissingDomain error (status 400) for every token, even a wrong
one, and the store is untouched. -/
theorem verifyDomainMock_missingDomain (newId now domain token : String)
    (store : List DomainRecord) (h : jsTrim domain = "") :
    verifyDomainMock newId now domain token store =
      (Except.error missingDomainError, store) ∧
    missingDomainError.status = 400 := by
  refine ⟨?_, rfl⟩
  unfold verifyDomainMock
  rw [if_pos h]

/-- Claim C3, witness: an all-whitespace name with a wrong token still yields
MissingDomain. -/
theorem verifyDomainMock_missingDomain_witness :
    verifyDomainMock ("id_1") ("2026-01-01T00:00:00.000Z") ("   ") ("wrong-token") [] =
      (Except.error missingDomainError, []) ∧
    missingDomainError.status = 400 :=
  verifyDomainMock_missingDomain ("id_1") ("2026-01-01T00:00:00.000Z") ("   ")
    ("wrong-token") [] (by decide)

/-- Claim C4: when the trimmed name is non-empty and the token differs from the
fixed expected token, `verifyDomainMock` fails with the InvalidToken error
(status 400), whatever the name. -/
theorem verifyDomainMock_invalidToken (newId now domain token : String)
    (store : List DomainRecord) (h1 : jsTrim domain ≠ "")
    (h2 : token ≠ DOMAIN_VERIFY_TOKEN) :
    verifyDomainMock newId now domain token store =
      (Except.error invalidTokenError, store) ∧
    invalidTokenError.status = 400 := by
  refine ⟨?_, rfl⟩
  unfold verifyDomainMock
  rw [if_neg h1, if_pos h2]

/-- Claim C4, witness: a name ending in the sentinel suffix, with an
already-verified record in the store, still yields InvalidToken when the token
is wrong. -/
theorem verifyDomainMock_invalidToken_witness :
    verifyDomainMock ("id_1") ("2026-01-02T00:00:00.000Z") ("broken.invalid")
        ("wrong-token") [seedVerified] =
      (Except.error invalidTokenError, [seedVerified]) ∧
    invalidTokenError.status = 400 :=
  verifyDomainMock_invalidToken ("id_1") ("2026-01-02T00:00:00.000Z")
    ("broken.invalid") ("wrong-token") [seedVerified] (by decide) (by decide)

/-- Claim C5: with the correct token and a trimmed non-empty name ending in
`.invalid`, `verifyDomainMock` fails with the DnsVerificationFailed error
(status 422). -/
theorem verifyDomainMock_dnsFailed (newId now domain token : String)
    (store : List DomainRecord) (h1 : jsTrim domain ≠ "")
    (h2 : token = DOMAIN_VERIFY_TOKEN)
    (h3 : jsEndsWith (jsTrim domain) (".invalid") = true) :
    verifyDomainMock newId now domain token store =
      (Except.error dnsVerificationFailedError, store) ∧
    dnsVerificationFailedError.status = 422 := by
  refine ⟨?_, rfl⟩
  unfold verifyDomainMock
  rw [if_neg h1, if_neg (not_not_intro h2), if_pos h3]

/-- Claim C5, witness: `sub.test.invalid` with the correct token yields
DnsVerificationFailed. -/
theorem verifyDomainMock_dnsFailed_witness :
    verifyDomainMock ("id_1") ("2026-01-02T00:00:00.000Z") ("sub.test.invalid")
        DOMAIN_VERIFY_TOKEN [] =
      (Except.error dnsVerificationFailedError, []) ∧
    dnsVerificationFailedError.status = 422 :=
  verifyDomainMock_dnsFailed ("id_1") ("2026-01-02T00:00:00.000Z")
    ("sub.test.invalid") DOMAIN_VERIFY_TOKEN [] (by decide) rfl (by decide)

/-- Claim C6: with the correct token, a trimmed non-empty name not ending in
the sentinel suffix, and an existing record found by `findDomainByName` that is
already verified, `verifyDomainMock` fails with the AlreadyVerified error
(status 409). -/
theorem verifyDomainMock_alreadyVerified (newId now domain token : String)
    (store : List DomainRecord) (e : DomainRecord)
    (h1 : jsTrim domain ≠ "") (h2 : token = DOMAIN_VERIFY_TOKEN)
    (h3 : jsEndsWith (jsTrim domain) (".invalid") = false)
    (h4 : findDomainByName store (jsTrim domain) = some e)
    (h5 : e.isVerified = true) :
    verifyDomainMock newId now domain token store =
      (Except.error alreadyVerifiedError, store) ∧
    alreadyVerifiedError.status = 409 := by
  refine ⟨?_, rfl⟩
  unfold verifyDomainMock
  rw [if_neg h1, if_neg (not_not_intro h2), if_neg (by simp [h3]),
    if_pos (by rw [h4]; simp [h5])]

/-- Claim C6, witness: re-verifying the seeded, already-verified
`example.com` (queried with different case and surrounding whitespace) yields
AlreadyVerified. -/
theorem verifyDomainMock_alreadyVerified_witness :
    verifyDomainMock ("id_1") ("2026-01-02T00:00:00.000Z") (" Example.com ")
        DOMAIN_VERIFY_TOKEN [seedVerified] =
      (Except.error alreadyVerifiedError, [seedVerified]) ∧
    alreadyVerifiedError.status = 409 :=
  verifyDomainMock_alreadyVerified ("id_1") ("2026-01-02T00:00:00.000Z")
    (" Example.com ") DOMAIN_VERIFY_TOKEN [seedVerified] seedVerified
    (by decide) rfl (by decide) (by decide) (by decide)

/-- Claim C7: when a record with the given id exists, `updateDomainRecord`
with a supplied `domain_name` string (equal to the current name or not) stores
the new name, sets `isVerified` to `false` and clears `verified_at`, in place;
when no record has the id it returns `null` and leaves the store unchanged. -/
theorem updateDomainRecord_resets_verification (domainId name : String)
    (store : List DomainRecord) :
    (∀ e, findDomainById store domainId = some e →
      ∃ as bs, store = as ++ e :: bs ∧
        updateDomainRecord domainId (some name) store =
          (some { e with domain_name := name, isVerified := false, verified_at := none },
            as ++ { e with domain_name := name, isVerified := false, verified_at := none }
              :: bs)) ∧
    (findDomainById store domainId = none →
      updateDomainRecord domainId (some name) store = (none, store)) := by
  constructor
  · intro e h
    unfold findDomainById at h
    obtain ⟨hpe, as, bs, hsplit, hall⟩ := List.find?_eq_some.mp h
    refine ⟨as, bs, hsplit, ?_⟩
    have has : ∀ d ∈ as, (d.id == domainId) = false := by
      intro d hd
      simpa using hall d hd
    unfold updateDomainRecord
    rw [hsplit, replaceFirst_append (applyDomainUpdates (some name)) as e bs has hpe]
    rfl
  · intro h
    unfold findDomainById at h
    unfold updateDomainRecord
    have hnone : replaceFirst (fun domain => domain.id == domainId)
        (applyDomainUpdates (some name)) store = none := by
      apply replaceFirst_eq_none_of
      intro d hd
      simpa using List.find?_eq_none.mp h d hd
    rw [hnone]

/-- Claim C8: name uniqueness is not an invariant of the store: upserting a
record with a fresh id whose name normalizes like an existing record's name
leaves two distinct records whose names are equal after lowercasing and
trimming. -/
theorem domain_name_uniqueness_violable :
    upsertDomain dupB [dupA] = [dupB, dupA] ∧ dupB ≠ dupA ∧
    jsToLower (jsTrim dupB.domain_name) = jsToLower (jsTrim dupA.domain_name) := by
  decide

/-- Claim C2: with the correct token and a trimmed non-empty name not ending
in `.invalid`: when no record matches the name, exactly one new record is
created — verified, with `verified_at` set — unshifted to the front of the
store (all previous records unchanged, length grown by one) and returned;
when an unverified record matches, it is updated in place instead of a new
record being created. -/
theorem verifyDomainMock_verifies (newId now domain token : String)
    (store : List DomainRecord)
    (h1 : jsTrim domain ≠ "")
    (h2 : token = DOMAIN_VERIFY_TOKEN)
    (h3 : jsEndsWith (jsTrim domain) (".invalid") = false) :
    (findDomainByName store (jsTrim domain) = none →
      verifyDomainMock newId now domain token store =
        (Except.ok (createDomainRecord newId now (jsTrim domain)
            { verified := true, scanCount := 0 }),
          createDomainRecord newId now (jsTrim domain)
            { verified := true, scanCount := 0 } :: store) ∧
      (createDomainRecord newId now (jsTrim domain)
        { verified := true, scanCount := 0 }).isVerified = true ∧
      (createDomainRecord newId now (jsTrim domain)
        { verified := true, scanCount := 0 }).verified_at = some now) ∧
    (∀ e, findDomainByName store (jsTrim domain) = some e → e.isVerified = false →
      ∃ as bs, store = as ++ e :: bs ∧
        verifyDomainMock newId now domain token store =
          (Except.ok (verifyUpdate now e), as ++ verifyUpdate now e :: bs)) := by
  have hkey : jsTrim (jsToLower (jsTrim domain)) = jsToLower (jsTrim (jsTrim domain)) :=
    jsTrim_jsToLower (jsTrim domain)
  constructor
  · intro h4
    refine ⟨?_, rfl, rfl⟩
    unfold verifyDomainMock
    rw [if_neg h1, if_neg (not_not_intro h2), if_neg (by simp [h3]),
      if_neg (by rw [h4]; simp)]
    have hnone : replaceFirst
        (fun domain_1 => jsToLower domain_1.domain_name == jsToLower (jsTrim (jsTrim domain)))
        (verifyUpdate now) store = none := by
      apply replaceFirst_eq_none_of
      intro d hd
      rw [← hkey]
      unfold findDomainByName at h4
      simpa using List.find?_eq_none.mp h4 d hd
    unfold verifyDomainRecord
    rw [hnone]
  · intro e h4 h5
    have h4' := h4
    unfold findDomainByName at h4'
    obtain ⟨hpe, as, bs, hsplit, hall⟩ := List.find?_eq_some.mp h4'
    refine ⟨as, bs, hsplit, ?_⟩
    unfold verifyDomainMock
    rw [if_neg h1, if_neg (not_not_intro h2), if_neg (by simp [h3]),
      if_neg (by rw [h4]; simp [h5])]
    have he : (jsToLower e.domain_name == jsToLower (jsTrim (jsTrim domain))) = true := by
      rw [← hkey]
      exact hpe
    have has : ∀ d ∈ as,
        (jsToLower d.domain_name == jsToLower (jsTrim (jsTrim domain))) = false := by
      intro d hd
      rw [← hkey]
      simpa using hall d hd
    unfold verifyDomainRecord
    rw [hsplit, replaceFirst_append (verifyUpdate now) as e bs has he]

/-- Claim C2, witness: verifying a fresh name (with surrounding whitespace and
mixed case) against the empty store creates exactly the one new verified
record at the front and returns it. -/
theorem verifyDomainMock_verifies_witness :
    verifyDomainMock ("id_new") ("2026-01-06T00:00:00.000Z") (" Fresh.example ")
        DOMAIN_VERIFY_TOKEN [] =
      (Except.ok (createDomainRecord ("id_new") ("2026-01-06T00:00:00.000Z")
          (jsTrim (" Fresh.example ")) { verified := true, scanCount := 0 }),
        [createDomainRecord ("id_new") ("2026-01-06T00:00:00.000Z")
          (jsTrim (" Fresh.example ")) { verified := true, scanCount := 0 }]) :=
  ((verifyDomainMock_verifies ("id_new") ("2026-01-06T00:00:00.000Z")
    (" Fresh.example ") DOMAIN_VERIFY_TOKEN [] (by decide) rfl (by decide)).1
    (by decide)).1

/-- Claim C9: whenever `verifyDomainMock` throws one of its four errors, the
store is exactly as it was before the call. -/
theorem verifyDomainMock_error_preserves_store (newId now domain token : String)
    (store : List DomainRecord) (err : ApiError)
    (h : (verifyDomainMock newId now domain token store).1 = Except.error err) :
    (verifyDomainMock newId now domain token store).2 = store := by
  unfold verifyDomainMock at h ⊢
  split_ifs at h ⊢ <;> simp_all

/-- Claim C9, witness: a DNS-failing verification leaves the store exactly as
it was. -/
theorem verifyDomainMock_error_preserves_store_witness :
    (verifyDomainMock ("id_1") ("2026-01-04T00:00:00.000Z") ("x.invalid")
        DOMAIN_VERIFY_TOKEN [seedVerified]).2 = [seedVerified] :=
  verifyDomainMock_error_preserves_store ("id_1") ("2026-01-04T00:00:00.000Z")
    ("x.invalid") DOMAIN_VERIFY_TOKEN [seedVerified] dnsVerificationFailedError
    rfl

/-- Claim C10: when `verifyDomainRecord` is called with a name matching an
existing record, the first matching record is replaced in place by its own
update — `id`, `user_id`, `domain_name`, `created_at` and `lastScan`
untouched, `scanCount` untouched whenever it was set — and every other record,
the order, and the length of the store are unchanged. -/
theorem verifyDomainRecord_frame (newId now domainName : String)
    (store : List DomainRecord)
    (h : ∃ d ∈ store, jsToLower d.domain_name = jsToLower (jsTrim domainName)) :
    ∃ as e bs, store = as ++ e :: bs ∧
      jsToLower e.domain_name = jsToLower (jsTrim domainName) ∧
      verifyDomainRecord newId now domainName store =
        (verifyUpdate now e, as ++ verifyUpdate now e :: bs) ∧
      (verifyUpdate now e).id = e.id ∧
      (verifyUpdate now e).user_id = e.user_id ∧
      (verifyUpdate now e).domain_name = e.domain_name ∧
      (verifyUpdate now e).created_at = e.created_at ∧
      (verifyUpdate now e).lastScan = e.lastScan ∧
      (∀ k, e.scanCount = some k → (verifyUpdate now e).scanCount = some k) ∧
      (as ++ verifyUpdate now e :: bs).length = store.length := by
  have hne : store.find?
      (fun d => jsToLower d.domain_name == jsToLower (jsTrim domainName)) ≠ none := by
    intro hcon
    obtain ⟨d, hd, hd2⟩ := h
    have hdrop := List.find?_eq_none.mp hcon d hd
    simp [hd2] at hdrop
  cases hfind : store.find?
      (fun d => jsToLower d.domain_name == jsToLower (jsTrim domainName)) with
  | none => exact absurd hfind hne
  | some e =>
    obtain ⟨hpe, as, bs, hsplit, hall⟩ := List.find?_eq_some.mp hfind
    refine ⟨as, e, bs, hsplit, by simpa using hpe, ?_, rfl, rfl, rfl, rfl, rfl, ?_, ?_⟩
    · have has : ∀ d ∈ as,
          (jsToLower d.domain_name == jsToLower (jsTrim domainName)) = false := by
        intro d hd
        simpa using hall d hd
      unfold verifyDomainRecord
      rw [hsplit, replaceFirst_append (verifyUpdate now) as e bs has hpe]
    · intro k hk
      simp [verifyUpdate, hk]
    · simp [hsplit]

/-- Claim C10, witness: re-verifying the seeded record (queried with different
case and whitespace) updates it in place, preserving its identity fields, its
set `scanCount`, and the store's shape. -/
theorem verifyDomainRecord_frame_witness :
    ∃ as e bs, ([seedVerified] : List DomainRecord) = as ++ e :: bs ∧
      jsToLower e.domain_name = jsToLower (jsTrim (" EXAMPLE.com ")) ∧
      verifyDomainRecord ("id_new") ("2026-01-05T00:00:00.000Z") (" EXAMPLE.com ")
          [seedVerified] =
        (verifyUpdate ("2026-01-05T00:00:00.000Z") e,
          as ++ verifyUpdate ("2026-01-05T00:00:00.000Z") e :: bs) ∧
      (verifyUpdate ("2026-01-05T00:00:00.000Z") e).id = e.id ∧
      (verifyUpdate ("2026-01-05T00:00:00.000Z") e).user_id = e.user_id ∧
      (verifyUpdate ("2026-01-05T00:00:00.000Z") e).domain_name = e.domain_name ∧
      (verifyUpdate ("2026-01-05T00:00:00.000Z") e).created_at = e.created_at ∧
      (verifyUpdate ("2026-01-05T00:00:00.000Z") e).lastScan = e.lastScan ∧
      (∀ k, e.scanCount = some k →
        (verifyUpdate ("2026-01-05T00:00:00.000Z") e).scanCount = some k) ∧
      (as ++ verifyUpdate ("2026-01-05T00:00:00.000Z") e :: bs).length =
        ([seedVerified] : List DomainRecord).length :=
  verifyDomainRecord_frame ("id_new") ("2026-01-05T00:00:00.000Z") (" EXAMPLE.com ")
    [seedVerified] (by decide)

end HYOW
